import Mathlib

/-!
Verification of `epike_bus_dump.py` (Shimano EP800 e-bike bus demodulator and
decoder) against its natural-language specification.

The Python source is shallowly embedded below.  Machine integers (numpy
`uint8`, Python `int`) are modelled as `Nat`; the sample values of a burst are
in `0..255` (numpy `uint8`).  Floating-point quantities of the source are
modelled exactly as rational comparisons over `Nat`:
  * the burst mean `data.mean()` (sum / length, exact) — a comparison
    `y < MEAN` becomes `length * y < sum`;
  * the peak-height thresholds `0.87 * m` — a comparison `x >= 0.87 * m`
    becomes `100 * x >= 87 * m`.
Both are exact for the integer data involved (the float rounding of the
source can differ from the exact rational only within ~1e-13 of a tie, and
the concrete inputs used below stay far from every such tie).

Python exceptions that the source leaves uncaught (`IndexError` from
indexing an empty peak array, `KeyError`, an unbound name) are modelled with
`Except PyError`; `main` has no handler for any of them, so an `.error`
value models the process dying.
-/

namespace EpikeBus

/-- Python `IndexError` / `ValueError` / `KeyError` / `NameError`; the source
has no `try`/`except`, so each of these is fatal to the process. -/
inductive PyError where
  | indexError
  | valueError
  | keyError
  | nameError
deriving DecidableEq, Repr

/-! ### Constants (source lines 23–28) -/

def ADC_SAMPLE_RATE : Nat := 5000000

def DEMOD_SAMPLE_RATE : Nat := 1 * ADC_SAMPLE_RATE

def BPSK_SYMBOL_RATE : Nat := 500000

/-- `int(DEMOD_SAMPLE_RATE / BPSK_SYMBOL_RATE)`; the float division is exact. -/
def SAMPLES_PER_SYMBOL : Nat := DEMOD_SAMPLE_RATE / BPSK_SYMBOL_RATE

/-- `int(ADC_SAMPLE_RATE / BPSK_SYMBOL_RATE * 8 * 3)` = 240. -/
def ADC_SAMPLES_FOR_3_BYTE_MSG : Nat := ADC_SAMPLE_RATE / BPSK_SYMBOL_RATE * 8 * 3

/-- `int(ADC_SAMPLE_RATE / BPSK_SYMBOL_RATE * 8 * 20)` = 1600. -/
def ADC_SAMPLES_FOR_TOO_LONG_MSG : Nat := ADC_SAMPLE_RATE / BPSK_SYMBOL_RATE * 8 * 20

/-- The burst-extractor acceptance test of source line 77:
`data.size >= ADC_SAMPLES_FOR_3_BYTE_MSG and data.size < ADC_SAMPLES_FOR_TOO_LONG_MSG`. -/
def burstAccepted (b : List Nat) : Prop :=
  ADC_SAMPLES_FOR_3_BYTE_MSG ≤ b.length ∧ b.length < ADC_SAMPLES_FOR_TOO_LONG_MSG

instance (b : List Nat) : Decidable (burstAccepted b) := by
  unfold burstAccepted; infer_instance

/-- numpy `.min()` on a nonempty array (caller guards emptiness). -/
def npMin : List Nat → Nat
  | [] => 0
  | x :: xs => xs.foldl Nat.min x

/-- numpy `.max()` on a nonempty array. -/
def npMax : List Nat → Nat
  | [] => 0
  | x :: xs => xs.foldl Nat.max x

/-! ### `scipy.signal.find_peaks`

`find_peaks(x, height=h)` first finds all local maxima of `x` the way scipy's
`_local_maxima_1d` does: a maximal plateau `x[l..r]` of equal values with
`1 ≤ l`, `r + 1 ≤ len - 1`, `x[l-1] < x[l]` and `x[r+1] < x[r]` yields the
single peak index `(l + r) / 2`; then it keeps the peaks with
`x[peak] ≥ h`.  Peaks come out in increasing index order. -/

/-- The index one past the end of the plateau of value `v` that starts at `i`:
scipy's inner scan `while i_ahead < n - 1 and x[i_ahead] == x[i]`. `fuel`
bounds the scan (callers pass `x.length`, more than enough). -/
def plateauEnd (x : List Nat) (v : Nat) : Nat → Nat → Nat
  | _, 0 => 0
  | i, fuel + 1 =>
    if i < x.length - 1 ∧ x.getD i 0 = v then plateauEnd x v (i + 1) fuel else i

/-- All local-maximum (plateau-midpoint) indices of `x`, ascending. -/
def localMaxima (x : List Nat) : List Nat :=
  (List.range x.length).filterMap (fun l =>
    if 1 ≤ l ∧ l < x.length - 1 ∧ x.getD (l - 1) 0 < x.getD l 0 then
      let r := plateauEnd x (x.getD l 0) (l + 1) x.length
      if x.getD r 0 < x.getD l 0 then some ((l + r - 1) / 2) else none
    else none)

/-- `scipy.signal.find_peaks(x, height = hNum / hDen)[0]`: the local maxima
whose value is at least the threshold (threshold held as an exact rational). -/
def findPeaks (x : List Nat) (hNum hDen : Nat) : List Nat :=
  (localMaxima x).filter (fun p => hNum ≤ hDen * x.getD p 0)

/-! ### Demodulator (source lines 82–146) -/

/-- The demodulator's intermediate state once the peaks are known: the
(possibly inverted) signal, the exact mean of the *original* burst as the
pair `sumOrig / n` (line 84 computes `MEAN` before the inversion of
line 111), and the burst span `[xFirst, xLast)`. -/
structure DemodView where
  dataAdj : List Nat
  sumOrig : Nat
  n : Nat
  xFirst : Nat
  xLast : Nat
deriving DecidableEq, Repr

/-- Lines 82–124: statistics, peak detection, polarity resolution and the
burst span.  An empty peak array makes line 110 (`peaks_hi[0] < peaks_lo[0]`)
raise an uncaught `IndexError`; an empty burst would already make
`data.min()` raise (`ValueError`).  Neither is caught anywhere in `main`. -/
def demodView (b : List Nat) : Except PyError DemodView :=
  if b.isEmpty then .error .valueError
  else
    let pkMin := npMin b
    let pkMax := npMax b
    let dataInv := b.map (fun y => 255 - y)
    let peaksHi := findPeaks b (87 * pkMax) 100
    let peaksLo := findPeaks dataInv (87 * (255 - pkMin)) 100
    match peaksHi, peaksLo with
    | [], _ => .error .indexError
    | _, [] => .error .indexError
    | h :: hs, l :: ls =>
      if h < l then
        .ok { dataAdj := dataInv, sumOrig := b.sum, n := b.length,
              xFirst := Nat.min l h,
              xLast := Nat.max ((l :: ls).getLastD 0) ((h :: hs).getLastD 0) }
      else
        .ok { dataAdj := b, sumOrig := b.sum, n := b.length,
              xFirst := Nat.min h l,
              xLast := Nat.max ((h :: hs).getLastD 0) ((l :: ls).getLastD 0) }

/-- Python `range(start, stop, step)` for a positive step. -/
def pyRange (start stop step : Nat) : List Nat :=
  (List.range ((stop - start + step - 1) / step)).map (fun k => start + step * k)

/-- Lines 129–131: one sample per symbol period starting at the span start;
each bit is the Python bool `data[i] < MEAN`, with the exact-mean comparison
`n * data[i] < sumOrig`. -/
def demodBitsOf (v : DemodView) : List Bool :=
  (pyRange v.xFirst v.xLast SAMPLES_PER_SYMBOL).map
    (fun i => decide (v.n * v.dataAdj.getD i 0 < v.sumOrig))

def demodBits (b : List Nat) : Except PyError (List Bool) :=
  (demodView b).map demodBitsOf

/-- MSB-first value of a list of bits (at most 8 of them in use below). -/
def byteOfBits (bs : List Bool) : Nat :=
  bs.foldl (fun acc b => 2 * acc + (if b then 1 else 0)) 0

/-- Zero-pad a bit group on the right to 8 bits. -/
def padTo8 (l : List Bool) : List Bool :=
  l ++ List.replicate (8 - l.length) false

/-- The recursion of `packBits`, structural on a fuel argument so that it
reduces definitionally; callers pass `bs.length`, which always suffices
because each step drops 8 bits from a nonempty list. -/
def packBitsGo : Nat → List Bool → List Nat
  | _, [] => []
  | 0, _ :: _ => []
  | fuel + 1, x :: xs =>
    byteOfBits (padTo8 ((x :: xs).take 8)) :: packBitsGo fuel ((x :: xs).drop 8)

/-- `np.packbits`: groups of 8 bits, MSB first; the final incomplete group is
zero-padded on the right to a full byte (nothing is dropped). -/
def packBits (bs : List Bool) : List Nat := packBitsGo bs.length bs

/-- Lines 143–146: drop the start-of-frame bit, pack the rest into bytes. -/
def demodFrame (b : List Nat) : Except PyError (List Nat) :=
  (demodBits b).map (fun bits => packBits (bits.drop 1))

/-! ### CRC (source line 48)

`crcmod.mkCrcFun(0b100000111, initCrc=0x6f, xorOut=0x00, rev=False)`:
an 8-bit CRC with generator polynomial 0x107, MSB-first (non-reflected),
initial register value 0x6f and no output XOR.  Processing one byte XORs it
into the register and clocks the register eight times. -/

/-- One MSB-first shift of the 8-bit CRC register for polynomial 0x107. -/
def crc8Round (c : Nat) : Nat :=
  if 128 ≤ c % 256 then ((2 * (c % 256)) % 256) ^^^ 0x07 else (2 * (c % 256)) % 256

/-- Eight register shifts: crcmod's table entry for index `c`. -/
def crc8Byte (c : Nat) : Nat :=
  crc8Round (crc8Round (crc8Round (crc8Round
    (crc8Round (crc8Round (crc8Round (crc8Round c)))))))

/-- `crc_func(data)`: fold the table step `crc = table[crc ^ byte]` from the
initial value 0x6f. -/
def crcFun (data : List Nat) : Nat :=
  data.foldl (fun c b => crc8Byte ((c ^^^ b) % 256)) 0x6f

/-! ### Frame validation (source lines 152–159) -/

inductive CrcStatus where
  | na
  | ok
  | err
deriving DecidableEq, Repr

/-- Lines 153–158: `N/A` for frames of at most 3 bytes, otherwise compare the
CRC of all bytes but the last with the last byte. -/
def crcClassify (f : List Nat) : CrcStatus :=
  if f.length ≤ 3 then .na
  else if crcFun f.dropLast = f.getLastD 0 then .ok
  else .err

/-- Line 159: `count_crc_err += 1` exactly on the `ERR` branch. -/
def crcErrStep (cnt : Nat) (f : List Nat) : Nat :=
  if crcClassify f = .err then cnt + 1 else cnt

/-! ### Device-id resolution (source lines 163–178) -/

/-- `dev_id`: `none` models Python's `False` (unresolved).  Note that the
`0xcc 0x40` rule reads the *third* byte of the frame. -/
def resolveDevId (f : List Nat) : Option Nat :=
  if 3 ≤ f.length then
    if f.getD 0 0 = 0xcc then
      if f.getD 1 0 = 0x40 then some (f.getD 2 0 &&& 0x3f)
      else if (f.getD 1 0 &&& 0x80) >>> 7 ≠ 0 then some (f.getD 1 0 &&& 0x3f)
      else none
    else if f.getD 0 0 = 0xce then some (f.getD 1 0 &&& 0x3f)
    else none
  else none

/-- Python truthiness of `dev_id` at line 183 (`if dev_id and ...`):
`False` and the integer 0 are both falsy. -/
def pyTruthy : Option Nat → Bool
  | none => false
  | some n => n != 0

/-! ### Frame filter (source lines 31–42, 215) and message counter (line 147) -/

def MSG_FILTER : List (List Nat) :=
  [[0xcf, 0x7f, 0x81],
   [0xcc, 0x80, 0x9a],
   [0xcc, 0x8d, 0x01],
   [0xcc, 0x93, 0x01],
   [0xcf, 0x7f, 0x80],
   [0xcc, 0x80, 0xa6]]

/-- Line 215: `any(np.array_equal(data_frame[:3], msg) for msg in MSG_FILTER)`
— the *first three bytes* of the frame are compared with each signature
(`np.array_equal` is shape-and-elements equality, so a frame shorter than
3 bytes matches nothing). -/
def isFiltered (f : List Nat) : Bool :=
  MSG_FILTER.any (fun m => f.take 3 == m)

/-- Line 147: `count_msg += 1`, unconditionally, for every demodulated frame. -/
def msgCountStep (cnt : Nat) : Nat := cnt + 1

/-! ### Frame header and message reassembly (source lines 182–212) -/

/-- `frame_type = (data_frame[3] >> 6) & 0x03`. -/
def frameType (f : List Nat) : Nat := (f.getD 3 0 >>> 6) &&& 0x03

/-- `reserved = (data_frame[3] >> 5) & 0x01`. -/
def frameReserved (f : List Nat) : Nat := (f.getD 3 0 >>> 5) &&& 0x01

/-- `counter = (data_frame[3] >> 0) & 0x1f`. -/
def frameCounter (f : List Nat) : Nat := f.getD 3 0 &&& 0x1f

/-- `data_frame[4:7]`. -/
def framePayload (f : List Nat) : List Nat := (f.drop 4).take 3

/-- The `data_packets` dictionary: device id to accumulating payload. -/
abbrev DevMap := Nat → Option (List Nat)

def DevMap.update (m : DevMap) (k : Nat) (v : List Nat) : DevMap :=
  fun j => if j = k then some v else m j

def DevMap.erase (m : DevMap) (k : Nat) : DevMap :=
  fun j => if j = k then none else m j

/-- Lines 182–212: the per-frame reassembly transition.  Runs only when
`dev_id` is truthy *and* the frame is exactly 8 bytes; returns the new map
and `dev_id_data_packet_complete` (the completed key, if any).
Frame types: 0b00 consecutive, 0b01 last, 0b10 first, 0b11 single. -/
def reassembleStep (m : DevMap) (devId : Option Nat) (f : List Nat) :
    DevMap × Option Nat :=
  if pyTruthy devId && (f.length == 8) then
    if frameType f = 0 then
      match m (devId.getD 0) with
      | some p => (m.update (devId.getD 0) (p ++ framePayload f), none)
      | none => (m, none)
    else if frameType f = 1 then
      match m (devId.getD 0) with
      | some p => (m.update (devId.getD 0) (p ++ framePayload f), some (devId.getD 0))
      | none => (m, none)
    else if frameType f = 2 then (m.update (devId.getD 0) (framePayload f), none)
    else if frameType f = 3 then
      (m.update (devId.getD 0) (framePayload f), some (devId.getD 0))
    else (m, none)
  else (m, none)

/-! ### Protocol decoder (source lines 248–434) -/

/-- `int.from_bytes(bs, byteorder=big)`. -/
def beBytes (bs : List Nat) : Nat :=
  bs.foldl (fun acc b => 256 * acc + b) 0

/-- `int.from_bytes(bs, byteorder=little)`. -/
def leBytes (bs : List Nat) : Nat :=
  bs.foldr (fun b acc => b + 256 * acc) 0

/-- Line 251: `cmd = (key << 16) | int.from_bytes(packet[0:2], 'big')`. -/
def cmdOf (key : Nat) (p : List Nat) : Nat :=
  (key <<< 16) ||| beBytes (p.take 2)

/-- A decoded telemetry value.  Quantities the source renders with a `/ 10`
float division are carried as their integer numerator (tenths). -/
inductive Telemetry where
  | maxSpeedTenths (v : Nat)
  | datetime (y mo d h mi s : Nat)
  | range (boost trail eco : Nat)
  | speedTenths (v : Nat)
  | dst (meters : Nat)
  | odo (meters : Nat)
  | cadence (rpm : Nat)
  | tripTime (minutes : Nat)
  | avgSpeedTenths (v : Nat)
  | assistMode (v : Nat)
  | walkMode (v : Nat)
  | switch (lower : Bool) (action : Nat)
  | battery (pct : Nat)
  | unknown (raw : List Nat)
deriving DecidableEq, Repr

/-- `data_packets[key][a:b]` as a little-endian integer. -/
def pktLE (p : List Nat) (a b : Nat) : Nat := leBytes ((p.drop a).take (b - a))

/-- Lines 250–434: decode the completed packet of `key`.  The five static
commands (`continue`, or a failed payload comparison) leave the map
untouched and emit nothing; every other recognized command and the unknown
fallback delete the entry.  The switch decoder's inner `match` has no case
for `(byte >> 4) & 3 == 3`: `str1` is then unbound and line 414 raises an
uncaught `NameError` (the very first time; afterwards a stale value from an
earlier frame would be printed — modelled as the error, which is what the
first occurrence does). -/
def decodeStep (m : DevMap) (key : Nat) :
    Except PyError (DevMap × Option Telemetry) :=
  match m key with
  | none => .error .keyError
  | some p =>
    let cmd := cmdOf key p
    if cmd = 0x0d4a0c ∨ cmd = 0x1a0102 ∨ cmd = 0x260102 ∨ cmd = 0x3f0200 ∨
        cmd = 0x3f0208 then
      .ok (m, none)
    else if cmd = 0x0d1638 ∨ cmd = 0x1a163a then
      .ok (m.erase key, some (.maxSpeedTenths (pktLE p 2 4)))
    else if cmd = 0x3f4a00 ∨ cmd = 0x1a4a0e then
      .ok (m.erase key, some (.datetime (pktLE p 2 3 + 2000) (pktLE p 3 4)
        (pktLE p 4 5) (pktLE p 5 6) (pktLE p 6 7) (pktLE p 7 8)))
    else if cmd = 0x0d1620 ∨ cmd = 0x1a1622 then
      .ok (m.erase key, some (.range (pktLE p 2 4) (pktLE p 4 6) (pktLE p 6 8)))
    else if cmd = 0x0d3c08 ∨ cmd = 0x1a3c0a then
      .ok (m.erase key, some (.speedTenths (pktLE p 2 4)))
    else if cmd = 0x0d4808 ∨ cmd = 0x1a480a then
      .ok (m.erase key, some (.dst (pktLE p 2 6)))
    else if cmd = 0x0d4828 ∨ cmd = 0x1a482a then
      .ok (m.erase key, some (.odo (pktLE p 2 6)))
    else if cmd = 0x0d3848 ∨ cmd = 0x1a384a then
      .ok (m.erase key, some (.cadence (pktLE p 4 5)))
    else if cmd = 0x0d1628 ∨ cmd = 0x1a162a then
      .ok (m.erase key, some (.tripTime (pktLE p 2 6)))
    else if cmd = 0x0d1630 ∨ cmd = 0x1a1632 then
      .ok (m.erase key, some (.avgSpeedTenths (pktLE p 2 4)))
    else if cmd = 0x0d1600 ∨ cmd = 0x1a1602 then
      .ok (m.erase key, some (.assistMode (pktLE p 2 4)))
    else if cmd = 0x0d1660 ∨ cmd = 0x1a1662 ∨ cmd = 0x131660 ∨
        cmd = 0x261662 then
      .ok (m.erase key, some (.walkMode (pktLE p 2 3)))
    else if cmd = 0x0d0400 ∨ cmd = 0x260400 then
      let b2 := p.getD 2 0
      let lower := (b2 &&& 0x01) ≠ 0
      match (b2 >>> 4) &&& 0x03 with
      | 0 => .ok (m.erase key, some (.switch lower 0))
      | 1 => .ok (m.erase key, some (.switch lower 1))
      | 2 => .ok (m.erase key, some (.switch lower 2))
      | _ => .error .nameError
    else if cmd = 0x0d2640 ∨ cmd = 0x1a2642 then
      .ok (m.erase key, some (.battery (pktLE p 2 3)))
    else
      .ok (m.erase key, some (.unknown p))

/-- The five command keys of the static/constant frames (lines 256–284). -/
def staticKeys : List Nat := [0x0d4a0c, 0x1a0102, 0x260102, 0x3f0200, 0x3f0208]

/-! ### Concrete inputs used to instantiate and refute claims -/

/-- A 256-sample burst (8 active 32-sample chunks, length inside the
acceptance window [240, 1600)): a low dip at index 10, high peaks at 20 and
25, and a sub-threshold 200-valued spike in each later chunk so every chunk
passes the extractor's activity test.  Its demodulation has exactly two
sample points (indices 10 and 20) and so decodes two bits. -/
def burstB : List Nat :=
  (List.range 256).map (fun i =>
    if i = 10 then 0
    else if i = 20 ∨ i = 25 then 255
    else if i % 32 = 5 ∧ 32 ≤ i then 200
    else 128)

/-- A length-accepted burst with no local maxima at all (constant amplitude):
`find_peaks` returns empty arrays for it. -/
def crashBurst : List Nat := List.replicate 256 255

/-- The spec sentence of C1 as a decidable check: every decoded bit is 0
(`false`) exactly when its sample lies strictly below the burst mean. -/
def specC1holds (b : List Nat) : Bool :=
  match demodView b, demodBits b with
  | .ok v, .ok bits =>
    (List.range bits.length).all (fun k =>
      bits.getD k false ==
        !(decide (v.n * v.dataAdj.getD (v.xFirst + SAMPLES_PER_SYMBOL * k) 0
          < v.sumOrig)))
  | _, _ => true

/-- The spec sentence of C3 as a decidable check: the frame has exactly
`floor((bits - 1) / 8)` bytes (trailing bits dropped). -/
def specC3holds (b : List Nat) : Bool :=
  match demodBits b, demodFrame b with
  | .ok bits, .ok frame => frame.length == (bits.length - 1) / 8
  | _, _ => true

/-- The payload the C8 scenario of the spec names:
`01 02 3c 08 1a 02 00`. -/
def payloadC8 : List Nat := [0x01, 0x02, 0x3c, 0x08, 0x1a, 0x02, 0x00]

/-- The speed-message payload of the source's own comment at line 322:
`3c 08 1a 02 00 ff` (device 0x0d, command key 0x0d3c08). -/
def speedPayload : List Nat := [0x3c, 0x08, 0x1a, 0x02, 0x00, 0xff]

/-! ### Helper lemmas -/

theorem samplesPerSymbol_eq : SAMPLES_PER_SYMBOL = 10 := rfl

theorem demodBits_eq_of_view (b : List Nat) (v : DemodView) (bits : List Bool)
    (hv : demodView b = .ok v) (hbits : demodBits b = .ok bits) :
    bits = demodBitsOf v := by
  rw [demodBits, hv] at hbits
  simp only [Except.map] at hbits
  cases hbits
  rfl

theorem demodFrame_eq_of_bits (b : List Nat) (bits : List Bool)
    (frame : List Nat) (hbits : demodBits b = .ok bits)
    (hframe : demodFrame b = .ok frame) :
    frame = packBits (bits.drop 1) := by
  rw [demodFrame, hbits] at hframe
  simp only [Except.map] at hframe
  cases hframe
  rfl

theorem packBitsGo_fuel (fuel fuel2 : Nat) (bs : List Bool)
    (h : bs.length ≤ fuel) (h2 : bs.length ≤ fuel2) :
    packBitsGo fuel bs = packBitsGo fuel2 bs := by
  induction fuel generalizing fuel2 bs with
  | zero =>
    cases bs with
    | nil => cases fuel2 <;> rfl
    | cons x xs => simp at h
  | succ fuel ih =>
    cases bs with
    | nil => cases fuel2 <;> rfl
    | cons x xs =>
      cases fuel2 with
      | zero => simp at h2
      | succ fuel2 =>
        simp only [List.length_cons] at h h2
        simp only [packBitsGo]
        rw [ih fuel2 ((x :: xs).drop 8)
          (by simp only [List.length_drop, List.length_cons]; omega)
          (by simp only [List.length_drop, List.length_cons]; omega)]

theorem packBits_cons (x : Bool) (xs : List Bool) :
    packBits (x :: xs) =
      byteOfBits (padTo8 ((x :: xs).take 8)) :: packBits ((x :: xs).drop 8) := by
  rw [packBits, packBits, List.length_cons, packBitsGo]
  rw [packBitsGo_fuel (xs.length) (((x :: xs).drop 8).length) ((x :: xs).drop 8)
    (by simp) (le_refl _)]

theorem packBits_length (bs : List Bool) :
    (packBits bs).length = (bs.length + 7) / 8 := by
  generalize hn : bs.length = n
  induction n using Nat.strong_induction_on generalizing bs with
  | _ n ih =>
    cases bs with
    | nil =>
      simp only [List.length_nil] at hn
      subst hn
      rfl
    | cons x xs =>
      subst hn
      rw [packBits_cons, List.length_cons]
      have hlt : ((x :: xs).drop 8).length < (x :: xs).length := by
        simp only [List.length_drop, List.length_cons]
        omega
      rw [ih _ hlt _ rfl]
      simp only [List.length_drop, List.length_cons]
      omega

theorem packBits_getD (bs : List Bool) (j : Nat)
    (hj : j < (packBits bs).length) :
    (packBits bs).getD j 0 = byteOfBits (padTo8 ((bs.drop (8 * j)).take 8)) := by
  induction j generalizing bs with
  | zero =>
    cases bs with
    | nil => simp [packBits, packBitsGo] at hj
    | cons x xs => rw [packBits_cons]; simp
  | succ j ih =>
    cases bs with
    | nil => simp [packBits, packBitsGo] at hj
    | cons x xs =>
      rw [packBits_cons] at hj ⊢
      have hj2 : j < (packBits ((x :: xs).drop 8)).length := by
        simp only [List.length_cons] at hj
        omega
      simp only [List.getD_cons_succ]
      rw [ih ((x :: xs).drop 8) hj2]
      rw [List.drop_drop, Nat.mul_succ, Nat.add_comm]

/-! ### C1 — symbol sampling and the bit decision -/

/-- C1 (amended).  For every accepted burst the demodulator samples the
signal once per symbol period (10 samples per symbol) starting at the
burst-span start; a sample strictly below the burst mean decodes to bit **1**
and a sample at or above the mean decodes to bit **0** (the source appends
the Python bool `data[i] < MEAN` itself as the bit, so the claim's 0/1
assignment is inverted). -/
theorem C1_sampling_and_bit_decision (b : List Nat) (v : DemodView)
    (bits : List Bool) (hacc : burstAccepted b) (hv : demodView b = .ok v)
    (hbits : demodBits b = .ok bits) :
    SAMPLES_PER_SYMBOL = 10 ∧
    bits.length = (v.xLast - v.xFirst + 9) / 10 ∧
    ∀ k, k < bits.length →
      (bits.getD k false = true ↔
        v.n * v.dataAdj.getD (v.xFirst + 10 * k) 0 < v.sumOrig) := by
  have hb : bits = demodBitsOf v := demodBits_eq_of_view b v bits hv hbits
  subst hb
  refine ⟨rfl, ?_, ?_⟩
  · simp only [demodBitsOf, pyRange, samplesPerSymbol_eq, List.length_map,
      List.length_range]
    omega
  · intro k hk
    rw [List.getD_eq_getElem _ _ hk]
    simp only [demodBitsOf, pyRange, samplesPerSymbol_eq, List.getElem_map,
      List.getElem_range]
    exact decide_eq_true_iff

set_option maxRecDepth 40000 in
/-- C1, the claim as the spec states it (bit 0 below the mean, bit 1 at or
above it), refuted on the concrete accepted burst `burstB`: its first sample
(amplitude 0, far below the mean) decodes to bit 1. -/
theorem C1_counterexample : burstAccepted burstB ∧ specC1holds burstB = false := by
  constructor
  · decide
  · rfl

set_option maxRecDepth 40000 in
/-- Witness for C1: the amended statement evaluated on `burstB`, whose
demodulation view is `(data, sum 33398, n 256, span [10, 25))` and whose
bits are `[true, false]`. -/
theorem C1_sampling_and_bit_decision_witness :
    burstAccepted burstB ∧
    (SAMPLES_PER_SYMBOL = 10 ∧
     ([true, false] : List Bool).length = (25 - 10 + 9) / 10 ∧
     ∀ k, k < ([true, false] : List Bool).length →
       (([true, false] : List Bool).getD k false = true ↔
         256 * burstB.getD (10 + 10 * k) 0 < 33398)) :=
  ⟨by decide,
   C1_sampling_and_bit_decision burstB
     { dataAdj := burstB, sumOrig := 33398, n := 256, xFirst := 10, xLast := 25 }
     [true, false] (by decide) (by rfl) (by rfl)⟩

/-! ### C2 — a burst with no detectable peaks crashes the process -/

set_option maxRecDepth 40000 in
/-- C2 (code bug).  The spec requires a burst with no detectable peaks to
fail with a recoverable `InsufficientPeaks` error (skip the burst, continue
the stream).  The source instead indexes the empty peak array at line 110
(`peaks_hi[0]`), raising an `IndexError` that nothing in `main` catches, so
the process dies: evaluated here on a length-accepted, all-255 burst, the
demodulator yields the fatal `indexError`, never a recoverable skip. -/
theorem C2_no_peaks_is_fatal :
    burstAccepted crashBurst ∧
    demodView crashBurst = .error .indexError ∧
    demodFrame crashBurst = .error .indexError :=
  ⟨by decide, by rfl, by rfl⟩

/-! ### C3 — bit-to-byte packing -/

/-- C3 (amended).  For every accepted burst, after discarding the first
decoded bit, the remaining bits are packed into bytes most-significant-bit
first, 8 bits per byte; trailing bits that do not complete a byte are
**zero-padded on the right into one final byte** (`np.packbits` pads, it
does not drop), so the frame has exactly `ceil((bits - 1) / 8)` bytes. -/
theorem C3_bit_packing (b : List Nat) (bits : List Bool) (frame : List Nat)
    (hacc : burstAccepted b) (hbits : demodBits b = .ok bits)
    (hframe : demodFrame b = .ok frame) :
    frame = packBits (bits.drop 1) ∧
    frame.length = (bits.length - 1 + 7) / 8 ∧
    ∀ j, j < frame.length →
      frame.getD j 0 = byteOfBits (padTo8 (((bits.drop 1).drop (8 * j)).take 8)) := by
  have hf : frame = packBits (bits.drop 1) :=
    demodFrame_eq_of_bits b bits frame hbits hframe
  subst hf
  refine ⟨rfl, ?_, fun j hj => packBits_getD _ j hj⟩
  rw [packBits_length, List.length_drop]

set_option maxRecDepth 40000 in
/-- C3, the claim as the spec states it (trailing bits dropped, so exactly
`floor((bits - 1) / 8)` bytes), refuted on the concrete accepted burst
`burstB`: it decodes 2 bits, and after the start-of-frame bit is removed the
one remaining bit is packed into one byte, not zero bytes. -/
theorem C3_counterexample : burstAccepted burstB ∧ specC3holds burstB = false := by
  exact ⟨by decide, by rfl⟩

set_option maxRecDepth 40000 in
/-- Witness for C3: the amended statement evaluated on `burstB`, which
decodes the bits `[true, false]` and packs them into the 1-byte frame `[0]`. -/
theorem C3_bit_packing_witness :
    burstAccepted burstB ∧
    (([0] : List Nat) = packBits (([true, false] : List Bool).drop 1) ∧
     ([0] : List Nat).length = (([true, false] : List Bool).length - 1 + 7) / 8 ∧
     ∀ j, j < ([0] : List Nat).length →
       ([0] : List Nat).getD j 0 =
         byteOfBits (padTo8 (((([true, false] : List Bool).drop 1).drop (8 * j)).take 8))) :=
  ⟨by decide, C3_bit_packing burstB [true, false] [0] (by decide) (by rfl) (by rfl)⟩

/-! ### C4 — checksum classification and the error counter -/

/-- C4 (confirmed).  A frame of at most 3 bytes is classified `N/A`; a longer
frame is `OK` exactly when the 8-bit CRC (polynomial 0x107, initial value
0x6f, no output XOR, MSB-first — the `crcFun` embedding) of all bytes but
the last equals the last byte, otherwise `ERR`, and the running error
counter is incremented by exactly one on `ERR` and left unchanged otherwise.
The final conjunct pins the initial register value. -/
theorem C4_checksum_classification (f g : List Nat) (cnt : Nat)
    (hf : 3 < f.length) (hg : g.length ≤ 3) :
    ((crcClassify f = .ok) ↔ crcFun f.dropLast = f.getLastD 0) ∧
    ((crcClassify f = .err) ↔ crcFun f.dropLast ≠ f.getLastD 0) ∧
    (crcClassify f = .err → crcErrStep cnt f = cnt + 1) ∧
    (crcClassify f ≠ .err → crcErrStep cnt f = cnt) ∧
    crcClassify g = .na ∧
    crcFun [] = 0x6f := by
  have hnot : ¬ f.length ≤ 3 := by omega
  have hcls : crcClassify f =
      (if crcFun f.dropLast = f.getLastD 0 then CrcStatus.ok else CrcStatus.err) := by
    unfold crcClassify
    rw [if_neg hnot]
  have hna : crcClassify g = CrcStatus.na := by
    unfold crcClassify
    rw [if_pos hg]
  refine ⟨?_, ?_, ?_, ?_, hna, rfl⟩ <;>
    by_cases hc : crcFun f.dropLast = f.getLastD 0 <;>
      simp [hcls, hc, crcErrStep]

/-- Witness for C4: the 4-byte frame `cc 40 05 b5` carries its correct CRC
(`crcFun [cc, 40, 05] = b5`) and is classified `OK`; the 3-byte frame
`[1, 2, 3]` is `N/A`. -/
theorem C4_checksum_classification_witness :
    ((crcClassify [0xcc, 0x40, 0x05, 0xb5] = .ok ↔
        crcFun ([0xcc, 0x40, 0x05, 0xb5] : List Nat).dropLast =
          ([0xcc, 0x40, 0x05, 0xb5] : List Nat).getLastD 0) ∧
     (crcClassify [0xcc, 0x40, 0x05, 0xb5] = .err ↔
        crcFun ([0xcc, 0x40, 0x05, 0xb5] : List Nat).dropLast ≠
          ([0xcc, 0x40, 0x05, 0xb5] : List Nat).getLastD 0) ∧
     (crcClassify [0xcc, 0x40, 0x05, 0xb5] = .err →
        crcErrStep 7 [0xcc, 0x40, 0x05, 0xb5] = 7 + 1) ∧
     (crcClassify [0xcc, 0x40, 0x05, 0xb5] ≠ .err →
        crcErrStep 7 [0xcc, 0x40, 0x05, 0xb5] = 7) ∧
     crcClassify [1, 2, 3] = .na ∧
     crcFun [] = 0x6f) :=
  C4_checksum_classification [0xcc, 0x40, 0x05, 0xb5] [1, 2, 3] 7
    (by decide) (by decide)

/-! ### C5 — device-id resolution -/

theorem three_of_length (f : List Nat) (h : 3 ≤ f.length) :
    ∃ a b c r, f = a :: b :: c :: r := by
  cases f with
  | nil => simp at h
  | cons a t =>
    cases t with
    | nil => simp at h
    | cons b t2 =>
      cases t2 with
      | nil => simp at h
      | cons c r => exact ⟨a, b, c, r, rfl⟩

theorem resolveDevId_cons (a b c : Nat) (r : List Nat) :
    resolveDevId (a :: b :: c :: r) =
      (if a = 0xcc then
        if b = 0x40 then some (c &&& 0x3f)
        else if (b &&& 0x80) >>> 7 ≠ 0 then some (b &&& 0x3f)
        else none
      else if a = 0xce then some (b &&& 0x3f)
      else none) := by
  unfold resolveDevId
  rw [if_pos (by simp)]
  rfl

/-- C5 (amended).  Device-id resolution is a pure function of the first
**three** header bytes (the `0xCC 0x40` rule reads the third byte), applying
the rules in order: `0xCC 0x40` resolves the third byte's low six bits;
`0xCC` with the second byte's high bit set resolves the second byte's low
six bits; `0xCE` resolves the second byte's low six bits; anything else is
unresolved; and no resolution is attempted for frames shorter than 3 bytes. -/
theorem C5_device_id_resolution (f g : List Nat) (h3 : 3 ≤ f.length)
    (hg : g.length < 3) :
    (∀ f2, 3 ≤ f2.length → f.take 3 = f2.take 3 →
      resolveDevId f = resolveDevId f2) ∧
    (f.getD 0 0 = 0xcc → f.getD 1 0 = 0x40 →
      resolveDevId f = some (f.getD 2 0 &&& 0x3f)) ∧
    (f.getD 0 0 = 0xcc → f.getD 1 0 ≠ 0x40 → (f.getD 1 0 &&& 0x80) >>> 7 ≠ 0 →
      resolveDevId f = some (f.getD 1 0 &&& 0x3f)) ∧
    (f.getD 0 0 ≠ 0xcc → f.getD 0 0 = 0xce →
      resolveDevId f = some (f.getD 1 0 &&& 0x3f)) ∧
    (f.getD 0 0 = 0xcc → f.getD 1 0 ≠ 0x40 → (f.getD 1 0 &&& 0x80) >>> 7 = 0 →
      resolveDevId f = none) ∧
    (f.getD 0 0 ≠ 0xcc → f.getD 0 0 ≠ 0xce → resolveDevId f = none) ∧
    resolveDevId g = none := by
  obtain ⟨a, b, c, r, rfl⟩ := three_of_length f h3
  have hg0 : resolveDevId g = none := by
    unfold resolveDevId
    rw [if_neg (by omega)]
  simp only [resolveDevId_cons, List.getD_cons_zero, List.getD_cons_succ]
  refine ⟨?_, ?_, ?_, ?_, ?_, ?_, hg0⟩
  · intro f2 h32 heq
    obtain ⟨a2, b2, c2, r2, rfl⟩ := three_of_length f2 h32
    simp only [List.take_succ_cons, List.take_zero] at heq
    obtain ⟨ha, hb, hc⟩ : a = a2 ∧ b = b2 ∧ c = c2 := by simpa using heq
    subst ha
    subst hb
    subst hc
    rw [resolveDevId_cons]
  · intro h0 h1
    simp [h0, h1]
  · intro h0 h1 h2
    simp [h0, h1, h2]
  · intro h0 h1
    simp [h0, h1]
  · intro h0 h1 h2
    simp [h0, h1, h2]
  · intro h0 h1
    simp [h0, h1]

/-- C5, the claim's "pure function of the first two header bytes" refuted:
two frames sharing their first two bytes `cc 40` resolve to different
device ids (1 and 2), because the `0xCC 0x40` rule reads the third byte. -/
theorem C5_counterexample :
    (([0xcc, 0x40, 0x01] : List Nat).take 2 = ([0xcc, 0x40, 0x02] : List Nat).take 2) ∧
    resolveDevId [0xcc, 0x40, 0x01] = some 1 ∧
    resolveDevId [0xcc, 0x40, 0x02] = some 2 := by
  decide

/-- Witness for C5: the amended statement evaluated on the frames
`cc 40 47` (resolves to id 7) and the 2-byte `ce 05` (unresolved). -/
theorem C5_device_id_resolution_witness :
    ((∀ f2, 3 ≤ f2.length →
        ([0xcc, 0x40, 0x47] : List Nat).take 3 = f2.take 3 →
        resolveDevId [0xcc, 0x40, 0x47] = resolveDevId f2) ∧
     (([0xcc, 0x40, 0x47] : List Nat).getD 0 0 = 0xcc →
        ([0xcc, 0x40, 0x47] : List Nat).getD 1 0 = 0x40 →
        resolveDevId [0xcc, 0x40, 0x47] =
          some (([0xcc, 0x40, 0x47] : List Nat).getD 2 0 &&& 0x3f)) ∧
     (([0xcc, 0x40, 0x47] : List Nat).getD 0 0 = 0xcc →
        ([0xcc, 0x40, 0x47] : List Nat).getD 1 0 ≠ 0x40 →
        (([0xcc, 0x40, 0x47] : List Nat).getD 1 0 &&& 0x80) >>> 7 ≠ 0 →
        resolveDevId [0xcc, 0x40, 0x47] =
          some (([0xcc, 0x40, 0x47] : List Nat).getD 1 0 &&& 0x3f)) ∧
     (([0xcc, 0x40, 0x47] : List Nat).getD 0 0 ≠ 0xcc →
        ([0xcc, 0x40, 0x47] : List Nat).getD 0 0 = 0xce →
        resolveDevId [0xcc, 0x40, 0x47] =
          some (([0xcc, 0x40, 0x47] : List Nat).getD 1 0 &&& 0x3f)) ∧
     (([0xcc, 0x40, 0x47] : List Nat).getD 0 0 = 0xcc →
        ([0xcc, 0x40, 0x47] : List Nat).getD 1 0 ≠ 0x40 →
        (([0xcc, 0x40, 0x47] : List Nat).getD 1 0 &&& 0x80) >>> 7 = 0 →
        resolveDevId [0xcc, 0x40, 0x47] = none) ∧
     (([0xcc, 0x40, 0x47] : List Nat).getD 0 0 ≠ 0xcc →
        ([0xcc, 0x40, 0x47] : List Nat).getD 0 0 ≠ 0xce →
        resolveDevId [0xcc, 0x40, 0x47] = none) ∧
     resolveDevId [0xce, 0x05] = none) :=
  C5_device_id_resolution [0xcc, 0x40, 0x47] [0xce, 0x05]
    (by decide) (by decide)

/-! ### C6 — CF/LF with no open message -/

/-- C6 (confirmed).  An 8-byte frame of type ConsecutiveFrame (0b00) or
LastFrame (0b01) whose resolved device has no open message is dropped with
no state change: the map is returned unchanged and nothing completes. -/
theorem C6_cf_lf_without_open_message (m : DevMap) (d : Nat) (f : List Nat)
    (h8 : f.length = 8) (hft : frameType f = 0 ∨ frameType f = 1)
    (habs : m d = none) :
    reassembleStep m (some d) f = (m, none) := by
  unfold reassembleStep
  by_cases hd : d = 0
  · subst hd
    rfl
  · rw [if_pos (by simp [pyTruthy, hd, h8])]
    rcases hft with h | h
    · rw [if_pos h]
      simp only [Option.getD_some]
      rw [habs]
    · rw [if_neg (by rw [h]; decide), if_pos h]
      simp only [Option.getD_some]
      rw [habs]

/-- Witness for C6: a consecutive frame for device 5 hitting an empty map
leaves the map empty and completes nothing. -/
theorem C6_cf_lf_without_open_message_witness :
    reassembleStep (fun _ => none) (some 5)
      [0xcc, 0x85, 0x00, 0x00, 0xaa, 0xbb, 0xcc, 0x99] =
      ((fun _ => none : DevMap), none) :=
  C6_cf_lf_without_open_message (fun _ => none) 5
    [0xcc, 0x85, 0x00, 0x00, 0xaa, 0xbb, 0xcc, 0x99] rfl (Or.inl rfl) rfl

/-! ### C7 — the frame filter -/

/-- C7 (amended).  A demodulated frame is excluded from the per-frame log
iff its **first three bytes** equal one of the six filter signatures (the
source compares `data_frame[:3]`, so longer frames with a matching 3-byte
prefix are filtered too); and every frame — filtered or not — increments
the total message counter by one. -/
theorem C7_filter_on_first_three_bytes (f : List Nat) (c : Nat) :
    (isFiltered f = true ↔ f.take 3 ∈ MSG_FILTER) ∧ msgCountStep c = c + 1 := by
  constructor
  · unfold isFiltered
    rw [List.any_eq_true]
    constructor
    · rintro ⟨m, hmem, hbeq⟩
      have hm : f.take 3 = m := by simpa using hbeq
      rw [hm]
      exact hmem
    · intro hmem
      exact ⟨f.take 3, hmem, by simp⟩
  · rfl

set_option maxRecDepth 4000 in
/-- C7, the claim's "excluded iff it exactly matches a 3-byte signature"
refuted: the 8-byte frame `cf 7f 81 00 00 00 00 00` is not an element of the
filter list, yet it is filtered, because only its first three bytes are
compared. -/
theorem C7_counterexample :
    isFiltered [0xcf, 0x7f, 0x81, 0, 0, 0, 0, 0] = true ∧
    ([0xcf, 0x7f, 0x81, 0, 0, 0, 0, 0] : List Nat) ∉ MSG_FILTER ∧
    msgCountStep 41 = 42 := by
  decide

/-! ### C8 — the decoder scenario -/

/-- C8, the claim's scenario refuted: the command key of payload
`01 02 3c 08 1a 02 00` under device id 0x0d is
`(0x0d << 16) | 0x0102 = 0x0d0102`, not `0x0d3c08`, and that key is not in
the dispatch table, so the completed message decodes to a raw-unknown
report (and its entry is deleted) — no speed is decoded. -/
theorem C8_counterexample :
    cmdOf 0x0d payloadC8 = 0x0d0102 ∧
    (0x0d0102 : Nat) ≠ 0x0d3c08 ∧
    decodeStep (DevMap.update (fun _ => none) 0x0d payloadC8) 0x0d =
      .ok ((DevMap.update (fun _ => none) 0x0d payloadC8).erase 0x0d,
        some (.unknown payloadC8)) :=
  ⟨by decide, by decide, rfl⟩

/-- C8 (amended).  For the spec's payload `01 02 3c 08 1a 02 00` under
device id 0x0d the command key is `0x0d0102` — `(device_id << 16)` OR-ed
with the big-endian value of the first two payload bytes — which is not in
the dispatch table, so the message is reported as unknown raw bytes.  The
speed rule belongs to key `0x0d3c08` (payload beginning `3c 08`): for the
source's own example payload `3c 08 1a 02 00 ff` it reads payload bytes
[2:4] (`1a 02`) little-endian, giving 538 tenths, i.e. 53.8 km/h. -/
theorem C8_command_key_and_speed :
    cmdOf 0x0d payloadC8 = 0x0d0102 ∧
    decodeStep (DevMap.update (fun _ => none) 0x0d payloadC8) 0x0d =
      .ok ((DevMap.update (fun _ => none) 0x0d payloadC8).erase 0x0d,
        some (.unknown payloadC8)) ∧
    cmdOf 0x0d speedPayload = 0x0d3c08 ∧
    pktLE speedPayload 2 4 = 538 ∧
    decodeStep (DevMap.update (fun _ => none) 0x0d speedPayload) 0x0d =
      .ok ((DevMap.update (fun _ => none) 0x0d speedPayload).erase 0x0d,
        some (.speedTenths 538)) :=
  ⟨by decide, rfl, by decide, by decide, rfl⟩

/-! ### C9 — resolved device id 0 -/

/-- C9 (confirmed).  An 8-byte frame whose header resolves to device id 0 is
excluded from reassembly by the truthiness test `if dev_id and ...` (Python's
`0` is falsy): the map is unchanged and nothing completes, exactly as when
the device id is unresolved (`False`). -/
theorem C9_device_id_zero (m : DevMap) (f : List Nat) (h8 : f.length = 8)
    (hres : resolveDevId f = some 0) :
    reassembleStep m (resolveDevId f) f = (m, none) ∧
    reassembleStep m none f = (m, none) := by
  rw [hres]
  exact ⟨rfl, rfl⟩

/-- Witness for C9: the single-frame `ce c0 11 c0 ...` resolves to device
id 0 (`0xc0 & 0x3f = 0`) and leaves a nonempty map untouched, completing
nothing. -/
theorem C9_device_id_zero_witness :
    reassembleStep (fun _ => some [9])
      (resolveDevId [0xce, 0xc0, 0x11, 0xc0, 1, 2, 3, 4])
      [0xce, 0xc0, 0x11, 0xc0, 1, 2, 3, 4] =
      ((fun _ => some [9] : DevMap), none) ∧
    reassembleStep (fun _ => some [9]) none
      [0xce, 0xc0, 0x11, 0xc0, 1, 2, 3, 4] =
      ((fun _ => some [9] : DevMap), none) :=
  C9_device_id_zero (fun _ => some [9]) [0xce, 0xc0, 0x11, 0xc0, 1, 2, 3, 4]
    rfl (by decide)

/-! ### C10 — static-frame keys retain the map entry -/

/-- C10 (confirmed).  When a completed message's command key is one of the
five static-frame keys, the decoder leaves the device's entry in the map
(the `continue`, and equally a failed payload comparison, skip the `del`),
so a subsequent ConsecutiveFrame or LastFrame for the same device appends
to the retained, already-completed payload. -/
theorem C10_static_keys_retain_entry (m : DevMap) (key : Nat) (p f : List Nat)
    (hm : m key = some p) (hcmd : cmdOf key p ∈ staticKeys) (hk : key ≠ 0)
    (h8 : f.length = 8) :
    decodeStep m key = .ok (m, none) ∧
    (frameType f = 0 →
      reassembleStep m (some key) f = (m.update key (p ++ framePayload f), none)) ∧
    (frameType f = 1 →
      reassembleStep m (some key) f =
        (m.update key (p ++ framePayload f), some key)) := by
  refine ⟨?_, ?_, ?_⟩
  · have hdisj : cmdOf key p = 0x0d4a0c ∨ cmdOf key p = 0x1a0102 ∨
        cmdOf key p = 0x260102 ∨ cmdOf key p = 0x3f0200 ∨
        cmdOf key p = 0x3f0208 := by
      simpa [staticKeys] using hcmd
    simp only [decodeStep, hm]
    rw [if_pos hdisj]
  · intro h
    unfold reassembleStep
    rw [if_pos (by simp [pyTruthy, hk, h8]), if_pos h]
    simp only [Option.getD_some]
    rw [hm]
  · intro h
    unfold reassembleStep
    rw [if_pos (by simp [pyTruthy, hk, h8]), if_neg (by rw [h]; decide), if_pos h]
    simp only [Option.getD_some]
    rw [hm]

/-- Witness for C10: device 0x0d holds the completed static payload
`4a 0c ff` (key 0x0d4a0c); decoding retains the entry, and a following
consecutive frame appends its bytes `07 08 09` to it. -/
theorem C10_static_keys_retain_entry_witness :
    (decodeStep (DevMap.update (fun _ => none) 0x0d [0x4a, 0x0c, 0xff]) 0x0d =
      .ok (DevMap.update (fun _ => none) 0x0d [0x4a, 0x0c, 0xff], none)) ∧
    (frameType [0xcc, 0x8d, 0x01, 0x00, 0x07, 0x08, 0x09, 0xff] = 0 →
      reassembleStep (DevMap.update (fun _ => none) 0x0d [0x4a, 0x0c, 0xff])
        (some 0x0d) [0xcc, 0x8d, 0x01, 0x00, 0x07, 0x08, 0x09, 0xff] =
        ((DevMap.update (fun _ => none) 0x0d [0x4a, 0x0c, 0xff]).update 0x0d
          ([0x4a, 0x0c, 0xff] ++
            framePayload [0xcc, 0x8d, 0x01, 0x00, 0x07, 0x08, 0x09, 0xff]), none)) ∧
    (frameType [0xcc, 0x8d, 0x01, 0x00, 0x07, 0x08, 0x09, 0xff] = 1 →
      reassembleStep (DevMap.update (fun _ => none) 0x0d [0x4a, 0x0c, 0xff])
        (some 0x0d) [0xcc, 0x8d, 0x01, 0x00, 0x07, 0x08, 0x09, 0xff] =
        ((DevMap.update (fun _ => none) 0x0d [0x4a, 0x0c, 0xff]).update 0x0d
          ([0x4a, 0x0c, 0xff] ++
            framePayload [0xcc, 0x8d, 0x01, 0x00, 0x07, 0x08, 0x09, 0xff]),
          some 0x0d)) :=
  C10_static_keys_retain_entry (DevMap.update (fun _ => none) 0x0d [0x4a, 0x0c, 0xff])
    0x0d [0x4a, 0x0c, 0xff] [0xcc, 0x8d, 0x01, 0x00, 0x07, 0x08, 0x09, 0xff]
    rfl (by decide) (by decide) rfl

end EpikeBus
